import Mathlib

/-!
Verification development for the cloud retry/backoff module
(`lib/ansible/module_utils/cloud.py`).

Modelling conventions:
* Python numbers (ints and floats used as delays) are embedded as exact
  rationals `ℚ`; the float literal `1.1` is the rational `11/10`.
* A backoff factory (`backoff_gen` closure) is a function `Unit → List ℚ`
  for the pure exponential strategy.  The jittered strategy threads the
  mutable random source explicitly: a random source is a state type `σ`
  together with `randint : σ → ℤ → ℤ → ℤ × σ` returning the drawn value
  and the advanced state, and the factory maps an incoming state to the
  produced sequence and the outgoing state (the generator closure shares
  the `_random` object, so the state flows through every invocation).
* The decorated `retry_func` is embedded as a recursion over the list of
  delays produced by the factory.  The wrapped function is modelled as
  `f : Nat → Except ε α`, giving the outcome of its k-th invocation
  (0-based): `.ok a` for a normal return, `.error e` for a raised
  exception.  The returned `RetryTrace` records the observable behaviour:
  the final outcome, the total number of invocations of `f`, the list of
  sleeps performed (in order), and how many elements of the backoff
  sequence were drawn from the generator (Python's `for delay in
  backoff():` draws the next element before running the loop body).
-/

namespace Cloud

/-- Embedding of `exponential_backoff(retries, delay, backoff)`: the
returned factory, when invoked, yields `delay * backoff ** retry` for
`retry` in `range(0, retries)`. -/
def exponential_backoff (retries : Nat) (delay bo : ℚ) : Unit → List ℚ :=
  fun _ => (List.range retries).map (fun retry => delay * bo ^ retry)

/-- Embedding of the generator body of `full_jitter_backoff`: starting at
loop index `i` with `n` iterations left and random state `s`, yield
`_random.randint(0, min(max_delay, delay * 2 ** retry))` for each
`retry = i, i+1, ...`, threading the random state. -/
def full_jitter_run {σ : Type} (rand : σ → ℤ → ℤ → ℤ × σ)
    (delay max_delay : ℤ) : Nat → Nat → σ → List ℚ × σ
  | 0, _, s => ([], s)
  | n + 1, i, s =>
    let p := rand s 0 (min max_delay (delay * 2 ^ i))
    let rest := full_jitter_run rand delay max_delay n (i + 1) p.2
    (((p.1 : ℚ)) :: rest.1, rest.2)

/-- Embedding of `full_jitter_backoff(retries, delay, max_delay, _random)`:
one invocation of the returned factory, given the current state `s` of the
shared random source; returns the produced sequence together with the
state the source is left in. -/
def full_jitter_backoff {σ : Type} (retries : Nat) (delay max_delay : ℤ)
    (rand : σ → ℤ → ℤ → ℤ × σ) (s : σ) : List ℚ × σ :=
  full_jitter_run rand delay max_delay retries 0 s

/-- Embedding of `default_backoff = exponential_backoff(retries=10, delay=3,
backoff=1.1)` (the float `1.1` as the exact rational `11/10`). -/
def default_backoff : Unit → List ℚ :=
  exponential_backoff 10 3 (11 / 10)

/-- A concrete `CloudRetry` subclass: `base_class` membership test (the
`isinstance(e, cls.base_class)` check), `status_code_from_exception`, and
the retryable-status predicate `found`. -/
structure CloudRetryPolicy (ε ρ : Type) where
  base_class : ε → Bool
  status_code_from_exception : ε → ρ
  found : ρ → Bool

/-- Observable behaviour of one invocation of the wrapped function:
final outcome, total number of invocations of the target, sleeps performed
in order, and the number of elements drawn from the backoff generator. -/
structure RetryTrace (ε α : Type) where
  result : Except ε α
  calls : Nat
  sleeps : List ℚ
  pulled : Nat

/-- Embedding of the loop of `retry_func`: `ds` is what remains of the
backoff sequence, `k` the index of the next invocation of `f`.  Each loop
iteration first draws a delay from the generator, then tries `f`; a
recognized retryable failure sleeps and continues, any other failure is
re-raised; when the sequence is exhausted a final unguarded call is made. -/
def retry_loop {ε ρ α : Type} (pol : CloudRetryPolicy ε ρ)
    (f : Nat → Except ε α) : List ℚ → Nat → RetryTrace ε α
  | [], k => { result := f k, calls := 1, sleeps := [], pulled := 0 }
  | d :: ds, k =>
    match f k with
    | .ok a => { result := .ok a, calls := 1, sleeps := [], pulled := 1 }
    | .error e =>
      if pol.base_class e then
        if pol.found (pol.status_code_from_exception e) then
          let t := retry_loop pol f ds (k + 1)
          { result := t.result, calls := t.calls + 1,
            sleeps := d :: t.sleeps, pulled := t.pulled + 1 }
        else { result := .error e, calls := 1, sleeps := [], pulled := 1 }
      else { result := .error e, calls := 1, sleeps := [], pulled := 1 }

/-- Embedding of `retry_func` itself: obtain a fresh sequence from the
factory and run the loop from invocation 0. -/
def retry_func {ε ρ α : Type} (pol : CloudRetryPolicy ε ρ)
    (factory : Unit → List ℚ) (f : Nat → Except ε α) : RetryTrace ε α :=
  retry_loop pol f (factory ()) 0

/-- Embedding of `CloudRetry.backoff` called without a `backoff` argument:
the keyword default `backoff=default_backoff` is used. -/
def CloudRetry.backoffDefault {ε ρ α : Type} (pol : CloudRetryPolicy ε ρ)
    (f : Nat → Except ε α) : RetryTrace ε α :=
  retry_func pol default_backoff f

/-- A concrete deterministic random source (a linear congruential
generator) used to instantiate the injectable `_random` dependency in
witnesses: `seeded n` is the state of a source seeded with `n`. -/
def lcg_next (s : Nat) : Nat := (s * 1103515245 + 12345) % 2147483648

/-- Uniform integer sampling `randint(lo, hi)` on the closed interval,
driven by `lcg_next`; the drawn value is `lo + state % (hi - lo + 1)`. -/
def lcg_randint (s : Nat) (lo hi : ℤ) : ℤ × Nat :=
  (lo + (lcg_next s : ℤ) % (hi - lo + 1), lcg_next s)

end Cloud

namespace Cloud

/- Helper lemmas (shared between several claims). -/

theorem retry_loop_all_retryable_aux {ε ρ α : Type} (pol : CloudRetryPolicy ε ρ)
    (f : Nat → Except ε α)
    (hfail : ∀ k, ∃ e, f k = Except.error e ∧ pol.base_class e = true ∧
      pol.found (pol.status_code_from_exception e) = true) :
    ∀ (ds : List ℚ) (k : Nat),
      retry_loop pol f ds k =
        { result := f (k + ds.length), calls := ds.length + 1,
          sleeps := ds, pulled := ds.length } := by
  intro ds
  induction ds with
  | nil => intro k; simp [retry_loop]
  | cons d ds ih =>
    intro k
    obtain ⟨e, he, hb, hf⟩ := hfail k
    have hk := ih (k + 1)
    simp only [retry_loop, he, hb, hf, if_true, hk, List.length_cons]
    have harith : k + 1 + ds.length = k + (ds.length + 1) := by omega
    rw [harith]

theorem retry_loop_calls_le_aux {ε ρ α : Type} (pol : CloudRetryPolicy ε ρ)
    (f : Nat → Except ε α) :
    ∀ (ds : List ℚ) (k : Nat), (retry_loop pol f ds k).calls ≤ ds.length + 1 := by
  intro ds
  induction ds with
  | nil => intro k; simp [retry_loop]
  | cons d ds ih =>
    intro k
    simp only [retry_loop, List.length_cons]
    have hk := ih (k + 1)
    cases f k with
    | ok a => simp
    | error e =>
      by_cases hb : pol.base_class e <;>
        by_cases hf : pol.found (pol.status_code_from_exception e) <;>
          simp [hb, hf]
      omega

theorem full_jitter_run_length_aux {σ : Type} (rand : σ → ℤ → ℤ → ℤ × σ)
    (delay max_delay : ℤ) :
    ∀ (n i : Nat) (s : σ),
      (full_jitter_run rand delay max_delay n i s).1.length = n := by
  intro n
  induction n with
  | zero => intro i s; rfl
  | succ n ih => intro i s; simp [full_jitter_run, ih]

theorem full_jitter_run_bounds_aux {σ : Type} (rand : σ → ℤ → ℤ → ℤ × σ)
    (delay max_delay : ℤ)
    (hrand : ∀ (s : σ) (lo hi : ℤ), lo ≤ hi →
      lo ≤ (rand s lo hi).1 ∧ (rand s lo hi).1 ≤ hi)
    (hd : 0 ≤ delay) (hm : 0 ≤ max_delay) :
    ∀ (n i : Nat) (s : σ) (j : Nat), j < n → ∃ v : ℤ,
      ((full_jitter_run rand delay max_delay n i s).1)[j]? = some ((v : ℚ)) ∧
      0 ≤ v ∧ v ≤ min max_delay (delay * 2 ^ (i + j)) := by
  intro n
  induction n with
  | zero => intro i s j hj; omega
  | succ n ih =>
    intro i s j hj
    have hlo : (0 : ℤ) ≤ min max_delay (delay * 2 ^ i) := by
      refine le_min hm ?_
      positivity
    cases j with
    | zero =>
      refine ⟨(rand s 0 (min max_delay (delay * 2 ^ i))).1, ?_, ?_, ?_⟩
      · simp [full_jitter_run]
      · exact (hrand s 0 (min max_delay (delay * 2 ^ i)) hlo).1
      · simpa using (hrand s 0 (min max_delay (delay * 2 ^ i)) hlo).2
    | succ j =>
      obtain ⟨v, hv, h0, h1⟩ :=
        ih (i + 1) (rand s 0 (min max_delay (delay * 2 ^ i))).2 j (by omega)
      refine ⟨v, ?_, h0, ?_⟩
      · simpa [full_jitter_run] using hv
      · have harith : i + 1 + j = i + (j + 1) := by omega
        rw [harith] at h1
        exact h1

theorem full_jitter_run_int_aux {σ : Type} (rand : σ → ℤ → ℤ → ℤ × σ)
    (delay max_delay : ℤ) :
    ∀ (n i : Nat) (s : σ) (v : ℚ),
      v ∈ (full_jitter_run rand delay max_delay n i s).1 →
        ∃ m : ℤ, v = ((m : ℚ)) := by
  intro n
  induction n with
  | zero => intro i s v hv; simp [full_jitter_run] at hv
  | succ n ih =>
    intro i s v hv
    simp only [full_jitter_run, List.mem_cons] at hv
    rcases hv with hv | hv
    · exact ⟨_, hv⟩
    · exact ih (i + 1) _ v hv

theorem lcg_randint_proper :
    ∀ (s : Nat) (lo hi : ℤ), lo ≤ hi →
      lo ≤ (lcg_randint s lo hi).1 ∧ (lcg_randint s lo hi).1 ≤ hi := by
  intro s lo hi h
  have hpos : (0 : ℤ) < hi - lo + 1 := by omega
  have h1 : 0 ≤ ((lcg_next s : ℤ)) % (hi - lo + 1) :=
    Int.emod_nonneg _ (by omega)
  have h2 : ((lcg_next s : ℤ)) % (hi - lo + 1) < hi - lo + 1 :=
    Int.emod_lt_of_pos _ hpos
  constructor
  · simp only [lcg_randint]
    omega
  · simp only [lcg_randint]
    omega

/-- A concrete policy that recognizes every exception and retries every
status code, used in witnesses. -/
def retryAllPolicy : CloudRetryPolicy Nat Nat :=
  { base_class := fun _ => true
    status_code_from_exception := id
    found := fun _ => true }

/-- A concrete policy that recognizes every exception but retries no
status code, used in witnesses. -/
def retryNonePolicy : CloudRetryPolicy Nat Nat :=
  { base_class := fun _ => true
    status_code_from_exception := id
    found := fun _ => false }

/-- C3: the factory returned by `exponential_backoff(retries, delay,
backoff)` produces exactly `retries` elements, the i-th (0-based, in
order) being `delay * backoff ^ i`; with `retries = 0` the sequence is
empty; and `exponential_backoff(retries=5, delay=1, backoff=2)` produces
exactly `[1, 2, 4, 8, 16]`. -/
theorem exponential_backoff_spec (retries : Nat) (delay bo : ℚ) :
    (exponential_backoff retries delay bo ()).length = retries ∧
    (∀ i, i < retries →
      (exponential_backoff retries delay bo ())[i]? = some (delay * bo ^ i)) ∧
    (retries = 0 → exponential_backoff retries delay bo () = []) ∧
    exponential_backoff 5 1 2 () = [1, 2, 4, 8, 16] := by
  refine ⟨by simp [exponential_backoff], ?_, ?_, ?_⟩
  · intro i hi
    simp [exponential_backoff, List.getElem?_range, hi]
  · intro h
    simp [exponential_backoff, h]
  · simp [exponential_backoff, List.range_succ]
    norm_num

/-- Witness for C3 at `retries = 5`, `delay = 1`, `backoff = 2`, `i = 3`. -/
theorem exponential_backoff_spec_witness :
    (exponential_backoff 5 1 2 ())[3]? = some 8 ∧
    exponential_backoff 5 1 2 () = [1, 2, 4, 8, 16] := by
  refine ⟨?_, (exponential_backoff_spec 5 1 2).2.2.2⟩
  have h := (exponential_backoff_spec 5 1 2).2.1 3 (by decide)
  norm_num at h
  exact h

/-- C1: if the classifier marks the raised exception as retryable on every
attempt, the wrapped function is invoked exactly `retries + 1` times (one
per scheduled delay plus the final unguarded attempt), the wrapper sleeps
exactly once per scheduled delay in order, and the outcome is exactly the
outcome of the final attempt (`f ds.length`), with no synthetic
retries-exhausted error. -/
theorem retry_all_retryable_exhaustion {ε ρ α : Type} (pol : CloudRetryPolicy ε ρ)
    (f : Nat → Except ε α) (ds : List ℚ)
    (hfail : ∀ k, ∃ e, f k = Except.error e ∧ pol.base_class e = true ∧
      pol.found (pol.status_code_from_exception e) = true) :
    retry_func pol (fun _ => ds) f =
      { result := f ds.length, calls := ds.length + 1,
        sleeps := ds, pulled := ds.length } := by
  have h := retry_loop_all_retryable_aux pol f hfail ds 0
  simpa [retry_func] using h

/-- Witness for C1: a function failing retryably on every attempt under a
retry-everything policy, with two scheduled delays. -/
theorem retry_all_retryable_exhaustion_witness :
    retry_func retryAllPolicy (fun _ => [(1 : ℚ), 2])
        (fun _ => (Except.error 7 : Except Nat Nat)) =
      { result := Except.error 7, calls := 3, sleeps := [1, 2], pulled := 2 } :=
  retry_all_retryable_exhaustion retryAllPolicy _ _
    (fun _ => ⟨7, rfl, rfl, rfl⟩)

/-- C2: an exception raised on the first attempt that is either outside
the policy's `base_class` family or has a non-retryable status code is
re-raised unmodified on that attempt: the wrapper's outcome is that exact
exception, there is exactly one invocation, and no sleep occurs. -/
theorem retry_nonretryable_propagates {ε ρ α : Type} (pol : CloudRetryPolicy ε ρ)
    (f : Nat → Except ε α) (ds : List ℚ) (e : ε)
    (h0 : f 0 = Except.error e)
    (hnr : pol.base_class e = false ∨
      pol.found (pol.status_code_from_exception e) = false) :
    (retry_func pol (fun _ => ds) f).result = Except.error e ∧
    (retry_func pol (fun _ => ds) f).calls = 1 ∧
    (retry_func pol (fun _ => ds) f).sleeps = [] := by
  cases ds with
  | nil => simp [retry_func, retry_loop, h0]
  | cons d ds =>
    rcases hnr with hb | hf
    · simp [retry_func, retry_loop, h0, hb]
    · cases hcb : pol.base_class e <;>
        simp [retry_func, retry_loop, h0, hcb, hf]

/-- Witness for C2: a recognized but non-retryable failure on the first
attempt with one scheduled delay available. -/
theorem retry_nonretryable_propagates_witness :
    (retry_func retryNonePolicy (fun _ => [(1 : ℚ)])
        (fun _ => (Except.error 5 : Except Nat Nat))).result = Except.error 5 ∧
    (retry_func retryNonePolicy (fun _ => [(1 : ℚ)])
        (fun _ => (Except.error 5 : Except Nat Nat))).calls = 1 ∧
    (retry_func retryNonePolicy (fun _ => [(1 : ℚ)])
        (fun _ => (Except.error 5 : Except Nat Nat))).sleeps = [] :=
  retry_nonretryable_propagates retryNonePolicy _ _ 5 rfl (Or.inr rfl)

/-- Counterexample to C6 as stated: a function that succeeds on the first
invocation with a nonempty backoff sequence.  The `for delay in backoff():`
loop draws the first element of the sequence before the first invocation
of the target, so one element IS consumed (`pulled = 1`, not `0`),
refuting "never consults the backoff sequence (no element of the sequence
is consumed)". -/
theorem retry_first_success_consumes_counterexample :
    (retry_func retryAllPolicy (fun _ => [(5 : ℚ)])
        (fun _ => (Except.ok 42 : Except Nat Nat))).pulled = 1 ∧
    ¬ (retry_func retryAllPolicy (fun _ => [(5 : ℚ)])
        (fun _ => (Except.ok 42 : Except Nat Nat))).pulled = 0 := by
  constructor
  · rfl
  · intro h
    simp [retry_func, retry_loop, retryAllPolicy] at h

/-- C6 (amended): if the target returns normally on the first invocation,
the wrapper returns that result immediately with exactly one invocation
and never sleeps; however the loop has already drawn the first element of
the backoff sequence when the sequence is nonempty (`pulled = min 1
ds.length`), though that delay is never used for sleeping. -/
theorem retry_first_success (ε ρ α : Type) (pol : CloudRetryPolicy ε ρ)
    (f : Nat → Except ε α) (ds : List ℚ) (a : α)
    (h : f 0 = Except.ok a) :
    retry_func pol (fun _ => ds) f =
      { result := Except.ok a, calls := 1, sleeps := [],
        pulled := min 1 ds.length } := by
  cases ds <;> simp [retry_func, retry_loop, h]

/-- Witness for amended C6: first-call success with one scheduled delay. -/
theorem retry_first_success_witness :
    retry_func retryAllPolicy (fun _ => [(5 : ℚ)])
        (fun _ => (Except.ok 42 : Except Nat Nat)) =
      { result := Except.ok 42, calls := 1, sleeps := [], pulled := 1 } := by
  have h := retry_first_success Nat Nat Nat retryAllPolicy
    (fun _ => (Except.ok 42 : Except Nat Nat)) [(5 : ℚ)] 42 rfl
  simpa using h

/-- C7: a target that fails retryably on its first two invocations and
returns normally on the third makes the wrapper return that result after
exactly three invocations and exactly two sleeps, for the first two
scheduled delays in order. -/
theorem retry_two_failures_then_success {ε ρ α : Type} (pol : CloudRetryPolicy ε ρ)
    (f : Nat → Except ε α) (d0 d1 : ℚ) (ds : List ℚ) (a : α)
    (h0 : ∃ e, f 0 = Except.error e ∧ pol.base_class e = true ∧
      pol.found (pol.status_code_from_exception e) = true)
    (h1 : ∃ e, f 1 = Except.error e ∧ pol.base_class e = true ∧
      pol.found (pol.status_code_from_exception e) = true)
    (h2 : f 2 = Except.ok a) :
    retry_func pol (fun _ => d0 :: d1 :: ds) f =
      { result := Except.ok a, calls := 3, sleeps := [d0, d1],
        pulled := 2 + min 1 ds.length } := by
  obtain ⟨e0, he0, hb0, hf0⟩ := h0
  obtain ⟨e1, he1, hb1, hf1⟩ := h1
  cases ds <;>
    simp [retry_func, retry_loop, he0, hb0, hf0, he1, hb1, hf1, h2]

/-- Witness for C7: two retryable failures then success, with exactly two
scheduled delays. -/
theorem retry_two_failures_then_success_witness :
    retry_func retryAllPolicy (fun _ => [(3 : ℚ), 6])
        (fun k => if k < 2 then Except.error 9 else (Except.ok 11 : Except Nat Nat)) =
      { result := Except.ok 11, calls := 3, sleeps := [3, 6], pulled := 2 } := by
  have h := retry_two_failures_then_success retryAllPolicy
    (fun k => if k < 2 then Except.error 9 else (Except.ok 11 : Except Nat Nat))
    3 6 [] 11 ⟨9, rfl, rfl, rfl⟩ ⟨9, rfl, rfl, rfl⟩ rfl
  simpa using h

/-- C9: `CloudRetry.backoff` without a `backoff` argument uses
`default_backoff = exponential_backoff(retries=10, delay=3, backoff=1.1)`:
the default sequence has 10 delays, the i-th scheduled delay equals
`3 * 1.1 ^ i` (as exact rationals), and the default-wrapped function is
invoked at most 11 times in total. -/
theorem backoff_default_spec :
    (default_backoff ()).length = 10 ∧
    (∀ i, i < 10 →
      (default_backoff ())[i]? = some (3 * (11 / 10 : ℚ) ^ i)) ∧
    ∀ (ε ρ α : Type) (pol : CloudRetryPolicy ε ρ) (f : Nat → Except ε α),
      (CloudRetry.backoffDefault pol f).calls ≤ 11 := by
  refine ⟨by simp [default_backoff, exponential_backoff], ?_, ?_⟩
  · intro i hi
    simp [default_backoff, exponential_backoff, List.getElem?_range, hi]
  · intro ε ρ α pol f
    have h := retry_loop_calls_le_aux pol f (default_backoff ()) 0
    have hlen : (default_backoff ()).length = 10 := by
      simp [default_backoff, exponential_backoff]
    rw [hlen] at h
    exact h

/-- Witness for C9 at `i = 1` and a concrete policy and target. -/
theorem backoff_default_spec_witness :
    (default_backoff ())[1]? = some ((33 : ℚ) / 10) ∧
    (CloudRetry.backoffDefault retryAllPolicy
      (fun _ => (Except.error 7 : Except Nat Nat))).calls ≤ 11 := by
  constructor
  · have h := backoff_default_spec.2.1 1 (by decide)
    norm_num at h
    exact h
  · exact backoff_default_spec.2.2 Nat Nat Nat retryAllPolicy _

/-- C4: for a positive `delay` and `max_delay` and any random source whose
`randint lo hi` draws within `[lo, hi]`, every element at position `i` of a
sequence produced by `full_jitter_backoff(retries, delay, max_delay)` is an
integer `v` with `0 ≤ v ≤ min max_delay (delay * 2 ^ i)`, the sequence has
exactly `retries` elements, and `retries = 0` yields the empty sequence. -/
theorem full_jitter_backoff_bounds {σ : Type} (rand : σ → ℤ → ℤ → ℤ × σ)
    (hrand : ∀ (s : σ) (lo hi : ℤ), lo ≤ hi →
      lo ≤ (rand s lo hi).1 ∧ (rand s lo hi).1 ≤ hi)
    (retries : Nat) (delay max_delay : ℤ)
    (hd : 0 < delay) (hm : 0 < max_delay) (s : σ) :
    ((full_jitter_backoff retries delay max_delay rand s).1).length = retries ∧
    (∀ i, i < retries → ∃ v : ℤ,
      ((full_jitter_backoff retries delay max_delay rand s).1)[i]? = some ((v : ℚ)) ∧
      0 ≤ v ∧ v ≤ min max_delay (delay * 2 ^ i)) ∧
    (retries = 0 → (full_jitter_backoff retries delay max_delay rand s).1 = []) := by
  refine ⟨full_jitter_run_length_aux rand delay max_delay retries 0 s, ?_, ?_⟩
  · intro i hi
    have h := full_jitter_run_bounds_aux rand delay max_delay hrand
      (le_of_lt hd) (le_of_lt hm) retries 0 s i hi
    simpa [full_jitter_backoff] using h
  · intro h
    subst h
    rfl

/-- Witness for C4: the concrete seeded LCG source, `retries = 3`,
`delay = 1`, `max_delay = 60`, position `i = 2`. -/
theorem full_jitter_backoff_bounds_witness :
    ((full_jitter_backoff 3 1 60 lcg_randint 1).1).length = 3 ∧
    ∃ v : ℤ, ((full_jitter_backoff 3 1 60 lcg_randint 1).1)[2]? = some ((v : ℚ)) ∧
      0 ≤ v ∧ v ≤ min 60 (1 * 2 ^ 2) :=
  ⟨(full_jitter_backoff_bounds lcg_randint lcg_randint_proper 3 1 60
      (by decide) (by decide) 1).1,
   (full_jitter_backoff_bounds lcg_randint lcg_randint_proper 3 1 60
      (by decide) (by decide) 1).2.1 2 (by decide)⟩

/-- C5: `full_jitter_backoff(retries=5, delay=1, max_delay=60)` is
deterministic in the injected random source: two factories over sources in
identical (identically seeded) states produce identical sequences, and the
produced sequence equals explicitly recomputing `randint(0, min(60, 2^i))`
for `i = 0..4` (the bounds reduce to `1, 2, 4, 8, 16`) threaded through
the same source. -/
theorem full_jitter_backoff_deterministic {σ : Type}
    (rand : σ → ℤ → ℤ → ℤ × σ) (s t : σ) (hst : s = t) :
    (full_jitter_backoff 5 1 60 rand s).1 = (full_jitter_backoff 5 1 60 rand t).1 ∧
    (full_jitter_backoff 5 1 60 rand s).1 =
      (let p0 := rand s 0 1
       let p1 := rand p0.2 0 2
       let p2 := rand p1.2 0 4
       let p3 := rand p2.2 0 8
       let p4 := rand p3.2 0 16
       [((p0.1 : ℚ)), ((p1.1 : ℚ)), ((p2.1 : ℚ)), ((p3.1 : ℚ)), ((p4.1 : ℚ))]) := by
  constructor
  · rw [hst]
  · simp only [full_jitter_backoff, full_jitter_run]
    norm_num

/-- Witness for C5: the concrete LCG source seeded twice with seed 1. -/
theorem full_jitter_backoff_deterministic_witness :
    (full_jitter_backoff 5 1 60 lcg_randint 1).1 =
      (full_jitter_backoff 5 1 60 lcg_randint 1).1 ∧
    (full_jitter_backoff 5 1 60 lcg_randint 1).1 =
      (let p0 := lcg_randint 1 0 1
       let p1 := lcg_randint p0.2 0 2
       let p2 := lcg_randint p1.2 0 4
       let p3 := lcg_randint p2.2 0 8
       let p4 := lcg_randint p3.2 0 16
       [((p0.1 : ℚ)), ((p1.1 : ℚ)), ((p2.1 : ℚ)), ((p3.1 : ℚ)), ((p4.1 : ℚ))]) :=
  full_jitter_backoff_deterministic lcg_randint 1 1 rfl

/-- C10: every value of a `full_jitter_backoff` sequence is an integer
(drawn with integer-valued uniform sampling), for any retries, integer
`delay` and `max_delay`, and any random source; whereas the exponential
variant can yield non-integer durations (the default sequence contains
`33/10`). -/
theorem full_jitter_backoff_integer_valued {σ : Type}
    (rand : σ → ℤ → ℤ → ℤ × σ) (retries : Nat) (delay max_delay : ℤ) (s : σ) :
    (∀ v ∈ (full_jitter_backoff retries delay max_delay rand s).1,
      ∃ m : ℤ, v = ((m : ℚ))) ∧
    ∃ w ∈ default_backoff (), ¬ ∃ m : ℤ, w = ((m : ℚ)) := by
  constructor
  · intro v hv
    exact full_jitter_run_int_aux rand delay max_delay retries 0 s v hv
  · refine ⟨(33 : ℚ) / 10, ?_, ?_⟩
    · simp [default_backoff, exponential_backoff, List.range_succ]
      norm_num
    · rintro ⟨m, hm⟩
      have h10 : (33 : ℚ) = ((m : ℚ)) * 10 := by
        field_simp at hm
        linarith
      have hz : (33 : ℤ) = m * 10 := by exact_mod_cast h10
      omega

/-- Witness for C10: the value 0 occurs in the LCG-seeded jitter sequence
and is an integer. -/
theorem full_jitter_backoff_integer_valued_witness :
    (0 : ℚ) ∈ (full_jitter_backoff 5 1 60 lcg_randint 1).1 ∧
    (∃ m : ℤ, (0 : ℚ) = ((m : ℚ))) ∧
    ∃ w ∈ default_backoff (), ¬ ∃ m : ℤ, w = ((m : ℚ)) :=
  ⟨by decide,
   (full_jitter_backoff_integer_valued lcg_randint 5 1 60 1).1 0 (by decide),
   (full_jitter_backoff_integer_valued lcg_randint 5 1 60 1).2⟩

/-- Counterexample to C8 as stated: with the injectable LCG random source
seeded with 1, consuming a first full-jitter sequence leaves the shared
source in an advanced state, and the factory's second invocation produces
a different sequence than an invocation from the unconsumed state — the
new sequence is influenced by the previous consumption. -/
theorem backoff_restartable_counterexample :
    (full_jitter_backoff 5 1 60 lcg_randint
        (full_jitter_backoff 5 1 60 lcg_randint 1).2).1 ≠
      (full_jitter_backoff 5 1 60 lcg_randint 1).1 := by
  decide

/-- C8 (amended): invoking either factory again restarts the sequence at
position `i = 0`.  For `exponential_backoff` the second invocation yields
the identical sequence, independent of any prior consumption.  For
`full_jitter_backoff` the second invocation again yields `retries`
elements whose position-`i` bound is `min(max_delay, delay * 2 ^ i)`, but
its values are drawn from the shared random source's current state, so
they depend on prior consumption. -/
theorem backoff_factories_restart {σ : Type} (rand : σ → ℤ → ℤ → ℤ × σ)
    (hrand : ∀ (s : σ) (lo hi : ℤ), lo ≤ hi →
      lo ≤ (rand s lo hi).1 ∧ (rand s lo hi).1 ≤ hi)
    (retries : Nat) (delay bo : ℚ) (jdelay jmax : ℤ)
    (hd : 0 < jdelay) (hm : 0 < jmax) (s0 : σ) :
    (∀ u v : Unit, exponential_backoff retries delay bo u =
      exponential_backoff retries delay bo v) ∧
    ((full_jitter_backoff retries jdelay jmax rand
        (full_jitter_backoff retries jdelay jmax rand s0).2).1).length = retries ∧
    ∀ i, i < retries → ∃ v : ℤ,
      ((full_jitter_backoff retries jdelay jmax rand
          (full_jitter_backoff retries jdelay jmax rand s0).2).1)[i]? = some ((v : ℚ)) ∧
      0 ≤ v ∧ v ≤ min jmax (jdelay * 2 ^ i) := by
  refine ⟨fun u v => rfl, full_jitter_run_length_aux rand jdelay jmax retries 0 _, ?_⟩
  intro i hi
  have h := full_jitter_run_bounds_aux rand jdelay jmax hrand
    (le_of_lt hd) (le_of_lt hm) retries 0
    (full_jitter_backoff retries jdelay jmax rand s0).2 i hi
  simpa [full_jitter_backoff] using h

/-- Witness for amended C8: LCG source, `retries = 2`, `delay = 1`,
`max_delay = 60`, position `i = 1` of the second sequence. -/
theorem backoff_factories_restart_witness :
    exponential_backoff 5 1 2 () = exponential_backoff 5 1 2 () ∧
    ((full_jitter_backoff 2 1 60 lcg_randint
        (full_jitter_backoff 2 1 60 lcg_randint 1).2).1).length = 2 ∧
    ∃ v : ℤ, ((full_jitter_backoff 2 1 60 lcg_randint
        (full_jitter_backoff 2 1 60 lcg_randint 1).2).1)[1]? = some ((v : ℚ)) ∧
      0 ≤ v ∧ v ≤ min 60 (1 * 2 ^ 1) :=
  ⟨(backoff_factories_restart lcg_randint lcg_randint_proper 5 1 2 1 60
      (by decide) (by decide) 1).1 () (),
   (backoff_factories_restart lcg_randint lcg_randint_proper 2 1 2 1 60
      (by decide) (by decide) 1).2.1,
   (backoff_factories_restart lcg_randint lcg_randint_proper 2 1 2 1 60
      (by decide) (by decide) 1).2.2 1 (by decide)⟩
